import Mathlib

/-!
Verification of the MiniURL short-code generation and resolution engine.

The definitions below are a shallow embedding of the JavaScript source:
  * `services/urlService.js` (`UrlService`): `generateShortCode`,
    `isExpired`, `customAlgorithm`;
  * `config/database.js` (`InMemoryDatabase`): `createUrl`, `createClick`,
    `findUrlByShortCode`, `findUrlById`, `findClicksByUrlId`, `deleteUrl`;
  * `middleware/security.js`: `validateShortCode`;
  * the URL routes: `GET /:shortCode` (redirect + click tracking),
    `DELETE /:id`, and the bulk-shorten code-generation block of
    `POST /api/v1/shorten/bulk`.

Randomness (`Math.random`, hashing, UUIDs) is modelled by an abstract
candidate stream `gen : Nat -> String` (attempt number to candidate) or an
abstract index stream `rand : Nat -> Nat`; wall-clock time by an integer
`now`.  Stateful storage is explicit state passing over `Store`.
-/

namespace MiniUrl

/-- Result of a bounded generate-and-check loop.  `ok code a` means the
candidate `code` was found free after `a` failed existence checks;
`exhausted a` means the loop gave up after `a` existence checks. -/
inductive GenResult where
  | ok (code : String) (attempts : Nat)
  | exhausted (attempts : Nat)
deriving Repr, DecidableEq

/-- The `while (attempts < maxAttempts)` loop body of
`UrlService.generateShortCode`: at attempt number `a` the algorithm branch
produces candidate `gen a`; `ex` is the `Url.findOne({where:{short_url}})`
existence check.  `fuel` is the number of remaining iterations
(`maxAttempts - attempts`). -/
def genLoop (gen : Nat → String) (ex : String → Bool) : Nat → Nat → GenResult
  | 0, a => .exhausted a
  | fuel + 1, a =>
    let code := gen a
    if ex code then genLoop gen ex fuel (a + 1) else .ok code a

/-- Source `UrlService.generateShortCode`: `maxAttempts = 10`; the `switch` on the
algorithm name selects one of the candidate generators, abstracted here as
the stream `gen`. -/
def generateShortCode (gen : Nat → String) (ex : String → Bool) : GenResult :=
  genLoop gen ex 10 0

/-- The uniqueness-retry block of `POST /api/v1/shorten/bulk` for the
custom-algorithm branch: candidate `code` was generated before the loop;
`while (attempts < 5)` re-checks and regenerates; on loop exit
`attempts >= 5` is reported as a generation failure.  `fuel` is
`5 - attempts`. -/
def bulkCustomGo (gen : Nat → String) (ex : String → Bool) :
    Nat → Nat → String → GenResult
  | 0, a, _ => .exhausted a
  | fuel + 1, a, code =>
    if ex code then bulkCustomGo gen ex fuel (a + 1) (gen (a + 1))
    else .ok code a

/-- Bulk-item code generation (`POST /api/v1/shorten/bulk`, per-URL body):
only when `algorithm === 'custom'` and `custom_options` is a non-empty
object does the handler run `UrlService.customAlgorithm` with the
5-attempt retry loop; every other combination falls through to
`UrlService.generateShortCode` (bound 10). -/
def bulkGenerateCode (algorithm : String) (customOptionsNonempty : Bool)
    (gen : Nat → String) (ex : String → Bool) : GenResult :=
  if algorithm == "custom" && customOptionsNonempty then
    bulkCustomGo gen ex 5 0 (gen 0)
  else
    generateShortCode gen ex

/-- Alphabet pieces used by `UrlService.customAlgorithm`. -/
def lowercaseChars : List Char :=
  "abcdefghijklmnopqrstuvwxyz".data

def uppercaseChars : List Char :=
  "ABCDEFGHIJKLMNOPQRSTUVWXYZ".data

def digitChars : List Char :=
  "0123456789".data

/-- The characters removed by `chars.replace(/[0oO1lI]/g, '')`. -/
def similarChars : List Char := ['0', 'o', 'O', '1', 'l', 'I']

/-- Alphabet construction of `UrlService.customAlgorithm`: lowercase, then
uppercase, then digits, as selected by the flags; then the similar-looking
characters are removed when `excludeSimilar` is set. -/
def buildAlphabet (includeNumbers includeUppercase includeLowercase
    excludeSimilar : Bool) : List Char :=
  let chars :=
    (if includeLowercase then lowercaseChars else []) ++
    (if includeUppercase then uppercaseChars else []) ++
    (if includeNumbers then digitChars else [])
  if excludeSimilar then chars.filter (fun c => !similarChars.contains c)
  else chars

/-- Source `UrlService.customAlgorithm`: draw `length` characters at positions
`Math.floor(Math.random() * chars.length)`, modelled as `rand i % |chars|`.
When the alphabet is empty, `''.charAt(0)` is the empty string in
JavaScript, so the loop appends nothing and the result is `""`. -/
def customAlgorithm (length : Nat) (includeNumbers includeUppercase
    includeLowercase excludeSimilar : Bool) (rand : Nat → Nat) : List Char :=
  let chars := buildAlphabet includeNumbers includeUppercase
    includeLowercase excludeSimilar
  if hc : chars = [] then []
  else
    (List.range length).map fun i =>
      chars.get ⟨rand i % chars.length,
        Nat.mod_lt _ (List.length_pos.mpr hc)⟩

/-- A stored URL record, as built by `InMemoryDatabase.createUrl`. -/
structure UrlRec where
  id : Nat
  original_url : String
  short_url : String
  user_id : Option Nat
  title : Option String
  description : Option String
  is_active : Bool
  expires_at : Option Int
  click_count : Nat
  createdAt : Int
  updatedAt : Int
deriving Repr, DecidableEq

/-- A stored click record, as built by `InMemoryDatabase.createClick`. -/
structure ClickRec where
  id : Nat
  url_id : Nat
  ip_address : String
  user_agent : String
  referer : Option String
  country : Option String
  city : Option String
  browser : Option String
  os : Option String
  device_type : String
  createdAt : Int
deriving Repr, DecidableEq

/-- The `InMemoryDatabase` state: the `urls` and `clicks` maps (in
insertion order) and the id counters. -/
structure Store where
  urls : List UrlRec
  clicks : List ClickRec
  urlCounter : Nat
  clickCounter : Nat
deriving Repr, DecidableEq

/-- The freshly constructed `InMemoryDatabase` (counters start at 1). -/
def emptyStore : Store := ⟨[], [], 1, 1⟩

/-- Input to `createUrl` (the `urlData` argument). -/
structure UrlInput where
  original_url : String
  short_url : String
  user_id : Option Nat := none
  title : Option String := none
  description : Option String := none
  is_active : Option Bool := none
  expires_at : Option Int := none
deriving Repr, DecidableEq

/-- Source `InMemoryDatabase.createUrl`: allocates the next id, builds the record
(`is_active` is true unless the input explicitly says `false`,
`click_count` starts at 0), stores it, and returns it.  No uniqueness
check of any kind is performed on `short_url`. -/
def createUrl (db : Store) (now : Int) (data : UrlInput) : UrlRec × Store :=
  let id := db.urlCounter
  let url : UrlRec :=
    { id := id
      original_url := data.original_url
      short_url := data.short_url
      user_id := data.user_id
      title := data.title
      description := data.description
      is_active := data.is_active != some false
      expires_at := data.expires_at
      click_count := 0
      createdAt := now
      updatedAt := now }
  (url, { db with urls := db.urls ++ [url], urlCounter := id + 1 })

/-- Source `InMemoryDatabase.findUrlByShortCode`: first record (in insertion
order) whose `short_url` equals the code, else `null`. -/
def findUrlByShortCode (db : Store) (code : String) : Option UrlRec :=
  db.urls.find? (fun u => u.short_url == code)

/-- Source `InMemoryDatabase.findUrlById`. -/
def findUrlById (db : Store) (id : Nat) : Option UrlRec :=
  db.urls.find? (fun u => u.id == id)

/-- Source `InMemoryDatabase.findClicksByUrlId`. -/
def findClicksByUrlId (db : Store) (urlId : Nat) : List ClickRec :=
  db.clicks.filter (fun c => c.url_id == urlId)

/-- Input to `createClick` (the `clickData` argument as passed by the
redirect route; `country`/`city`/`browser`/`os` are not supplied there). -/
structure ClickInput where
  url_id : Nat
  ip_address : String
  user_agent : String
  referer : Option String
  device_type : String
deriving Repr, DecidableEq

/-- Source `InMemoryDatabase.createClick`: allocates the next id, stores the click
record, then increments `click_count` on the URL record with the matching
id (the `urls` map is keyed by id, so at most the one record with
`u.id = url_id` is updated). -/
def createClick (db : Store) (now : Int) (data : ClickInput) :
    ClickRec × Store :=
  let id := db.clickCounter
  let click : ClickRec :=
    { id := id
      url_id := data.url_id
      ip_address := data.ip_address
      user_agent := data.user_agent
      referer := data.referer
      country := none
      city := none
      browser := none
      os := none
      device_type := data.device_type
      createdAt := now }
  (click,
    { db with
        clicks := db.clicks ++ [click]
        clickCounter := id + 1
        urls := db.urls.map fun u =>
          if u.id == data.url_id then { u with click_count := u.click_count + 1 }
          else u })

/-- Source `InMemoryDatabase.deleteUrl`: removes the URL record with that id (and
nothing else — clicks are untouched). -/
def deleteUrl (db : Store) (id : Nat) : Store :=
  { db with urls := db.urls.filter (fun u => !(u.id == id)) }

/-- Source `UrlService.isExpired`: no `expires_at` means not expired; otherwise
expired exactly when the current time is strictly past `expires_at`. -/
def isExpired (now : Int) (url : UrlRec) : Bool :=
  match url.expires_at with
  | none => false
  | some t => now > t

/-- One character of the `validateShortCode` whitelist regex
`/^[a-zA-Z0-9_-]{1,20}$/`. -/
def validChar (c : Char) : Bool :=
  c.isAlpha || c.isDigit || c == '_' || c == '-'

/-- Full match of `/^[a-zA-Z0-9_-]{1,20}$/`. -/
def shortCodePatternOk (l : List Char) : Bool :=
  decide (1 ≤ l.length) && decide (l.length ≤ 20) && l.all validChar

/-- The `/\.\./` path-traversal pattern: two consecutive dots somewhere. -/
def hasDotDot : List Char → Bool
  | c1 :: c2 :: rest => (c1 == '.' && c2 == '.') || hasDotDot (c2 :: rest)
  | _ => false

/-- A hexadecimal digit, case-insensitive (`[0-9a-f]` with the `/i` flag). -/
def isHexDigit (c : Char) : Bool :=
  c.isDigit || ('a' ≤ c && c ≤ 'f') || ('A' ≤ c && c ≤ 'F')

/-- The `/%[0-9a-f]{2}/i` URL-encoding pattern. -/
def hasPercentHex : List Char → Bool
  | c0 :: c1 :: c2 :: rest =>
    (c0 == '%' && isHexDigit c1 && isHexDigit c2) ||
      hasPercentHex (c1 :: c2 :: rest)
  | _ => false

/-- The `/[<>'"&]/` XSS-character class. -/
def isXssChar (c : Char) : Bool :=
  c == '<' || c == '>' || c == '\'' || c == '"' || c == '&'

/-- The `maliciousPatterns` array of `validateShortCode`: path traversal,
URL encoding, XSS characters, null bytes, backslashes, forward slashes. -/
def hasMaliciousPattern (l : List Char) : Bool :=
  hasDotDot l || hasPercentHex l || l.any isXssChar ||
    l.any (fun c => c == Char.ofNat 0) || l.any (fun c => c == '\\') ||
    l.any (fun c => c == '/')

/-- Outcome of the `validateShortCode` middleware: `ok` calls `next()`;
`reject logged` answers 400, where `logged` records whether the
`console.warn(offending code, source IP)` line ran (it runs only in the
malicious-pattern branch, not for a missing code or a regex mismatch). -/
inductive VResult where
  | ok
  | reject (logged : Bool)
deriving Repr, DecidableEq

/-- The `validateShortCode` middleware: a missing (empty) code is a 400
without logging; a regex mismatch is a 400 without logging; a regex match
containing a malicious pattern is a 400 with the warn log; otherwise the
request proceeds. -/
def validateShortCode (l : List Char) : VResult :=
  if l = [] then .reject false
  else if shortCodePatternOk l then
    if hasMaliciousPattern l then .reject true else .ok
  else .reject false

/-- JavaScript `String.prototype.includes`: `tok` occurs as a contiguous substring. -/
def hasSubstr (tok : List Char) : List Char → Bool
  | [] => tok.isEmpty
  | c :: rest => tok.isPrefixOf (c :: rest) || hasSubstr tok rest

/-- Device detection of the redirect route's click-tracking block:
substring tests on the user-agent, in source order. -/
def deviceTypeOf (ua : String) : String :=
  if hasSubstr ("Mobile".data) ua.data then "mobile"
  else if hasSubstr ("Tablet".data) ua.data then "tablet"
  else if hasSubstr ("Desktop".data) ua.data || hasSubstr ("Windows".data) ua.data
      || hasSubstr ("Mac".data) ua.data then "desktop"
  else "other"

/-- HTTP outcome of the `GET /:shortCode` route. -/
inductive RouteOutcome where
  | badRequest (logged : Bool)
  | notFound
  | gone (reason : String)
  | redirect (status : Nat) (target : String)
deriving Repr, DecidableEq

/-- The `GET /:shortCode` handler body (after `validateShortCode` has
passed): look up the code; 404 if absent; 410 if `is_active` is false;
410 if expired; otherwise record the click and answer a 301 redirect to
`original_url`.  `clickCreate` abstracts `Click.create`: `none` models a
throw, which the handler catches, leaving the redirect untouched. -/
def redirectHandler (clickCreate : Store → ClickInput → Option Store)
    (db : Store) (now : Int) (code ip ua : String) (ref : Option String) :
    RouteOutcome × Store :=
  match findUrlByShortCode db code with
  | none => (.notFound, db)
  | some url =>
    if url.is_active = false then (.gone ("disabled"), db)
    else if isExpired now url then (.gone ("expired"), db)
    else
      let db' :=
        match clickCreate db
            ⟨url.id, ip, ua, ref, deviceTypeOf ua⟩ with
        | some d => d
        | none => db
      (.redirect 301 url.original_url, db')

/-- Source `Click.create` as wired in the route: `database.createClick`
(never throws). -/
def clickCreateReal (now : Int) (db : Store) (data : ClickInput) :
    Option Store :=
  some (createClick db now data).2

/-- The full `GET /:shortCode` route: `validateShortCode` middleware, then
the handler.  A validation rejection answers 400 before any storage
access. -/
def resolveRoute (clickCreate : Store → ClickInput → Option Store)
    (db : Store) (now : Int) (code ip ua : String) (ref : Option String) :
    RouteOutcome × Store :=
  match validateShortCode code.data with
  | .reject logged => (.badRequest logged, db)
  | .ok => redirectHandler clickCreate db now code ip ua ref

/-- The `GET /:shortCode` route with the real in-memory click store. -/
def resolveRouteReal (db : Store) (now : Int) (code ip ua : String)
    (ref : Option String) : RouteOutcome × Store :=
  resolveRoute (clickCreateReal now) db now code ip ua ref

/-- HTTP outcome of the `DELETE /:id` route. -/
inductive DeleteOutcome where
  | notFound
  | deleted
  | serverError
deriving Repr, DecidableEq

/-- The `Click` model adapter in `models/index.js` exports `create`,
`findAll`, `getClicksByPeriod` and `getTopReferrers` only; the handler's
`Click.destroy({where:{url_id}})` looks up a method that does not exist. -/
def clickDestroyMethod : Option (Store → Nat → Store) := none

/-- The plain record returned by `database.findUrlById` has no `destroy`
method either (`url.destroy()` in the handler is a Sequelize-instance
call). -/
def urlRecordDestroyMethod : Option (Store → Nat → Store) := none

/-- The `DELETE /:id` handler (after authentication): find the URL; 404 if
absent; then `await Click.destroy(...)` and `await url.destroy()`.
Calling a missing method throws a `TypeError`, which the surrounding
`catch` turns into a 500 response, leaving the store as it was at the
throw. -/
def deleteUrlHandler (db : Store) (id : Nat) : DeleteOutcome × Store :=
  match findUrlById db id with
  | none => (.notFound, db)
  | some _ =>
    match clickDestroyMethod with
    | none => (.serverError, db)
    | some clickDestroy =>
      let db1 := clickDestroy db id
      match urlRecordDestroyMethod with
      | none => (.serverError, db1)
      | some urlDestroy => (.deleted, urlDestroy db1 id)

/-! ## Supporting lemmas -/

/-- When every generated candidate already exists, the single-shorten loop
spends all its fuel and reports the accumulated attempt count. -/
theorem genLoop_all_exist (gen : Nat → String) (ex : String → Bool)
    (h : ∀ n, ex (gen n) = true) :
    ∀ fuel a, genLoop gen ex fuel a = .exhausted (a + fuel) := by
  intro fuel
  induction fuel with
  | zero => intro a; simp [genLoop]
  | succ f ih =>
    intro a
    simp only [genLoop, h a, if_true]
    rw [ih (a + 1)]
    congr 1
    omega

/-- When every generated candidate already exists, the bulk custom loop
spends all its fuel and reports the accumulated attempt count. -/
theorem bulkCustomGo_all_exist (gen : Nat → String) (ex : String → Bool)
    (h : ∀ n, ex (gen n) = true) :
    ∀ fuel a, bulkCustomGo gen ex fuel a (gen a) = .exhausted (a + fuel) := by
  intro fuel
  induction fuel with
  | zero => intro a; simp [bulkCustomGo]
  | succ f ih =>
    intro a
    simp only [bulkCustomGo, h a, if_true]
    rw [ih (a + 1)]
    congr 1
    omega

/-! ## C2 -/

/-- C2: for every algorithm (candidate stream `gen`) and original URL, if
the store reports every generated candidate as already existing,
`UrlService.generateShortCode` performs exactly 10 generate-and-check
attempts and then terminates with the generation-exhausted error; it never
returns a code in that case. -/
theorem C2_generateShortCode_exhausts_after_ten (gen : Nat → String)
    (ex : String → Bool) (h : ∀ n, ex (gen n) = true) :
    generateShortCode gen ex = .exhausted 10 := by
  unfold generateShortCode
  rw [genLoop_all_exist gen ex h 10 0]

/-- Witness for C2 at a concrete always-colliding generator and store. -/
theorem C2_witness :
    generateShortCode (fun _ => "aaaaaa") (fun _ => true) =
      .exhausted 10 :=
  C2_generateShortCode_exhausts_after_ten (fun _ => "aaaaaa") (fun _ => true)
    (fun _ => rfl)

/-! ## C8 -/

/-- C8 counterexample: in the bulk path with `algorithm = "hash"` and every
candidate already existing, the loop exhausts after 10 attempts, not 5 —
so the claim that the bulk retry bound is 5 "for every generation
strategy" is false. -/
theorem C8_counterexample_hash_uses_ten :
    bulkGenerateCode ("hash") true (fun _ => "aaaaaa") (fun _ => true) =
        .exhausted 10 ∧
      bulkGenerateCode ("hash") true (fun _ => "aaaaaa") (fun _ => true) ≠
        .exhausted 5 := by
  constructor
  · rfl
  · intro h
    simp [bulkGenerateCode, generateShortCode, genLoop] at h

/-- C8 amended: within a bulk-shortening request the 5-attempt bound
applies only to the `custom` strategy with non-empty `custom_options`;
every other strategy goes through `generateShortCode` with the 10-attempt
bound. -/
theorem C8_bulk_bound_five_only_for_custom (algorithm : String)
    (customOptionsNonempty : Bool) (gen : Nat → String) (ex : String → Bool)
    (h : ∀ n, ex (gen n) = true) :
    bulkGenerateCode algorithm customOptionsNonempty gen ex =
      .exhausted
        (if algorithm == "custom" && customOptionsNonempty then 5 else 10) := by
  unfold bulkGenerateCode
  by_cases hc : (algorithm == "custom" && customOptionsNonempty) = true
  · rw [if_pos hc, if_pos hc, bulkCustomGo_all_exist gen ex h 5 0]
  · rw [if_neg hc, if_neg hc]
    unfold generateShortCode
    rw [genLoop_all_exist gen ex h 10 0]

/-- Witness for the amended C8: the custom-with-options branch exhausts at
5, concretely. -/
theorem C8_witness :
    bulkGenerateCode ("custom") true (fun _ => "aaaaaa") (fun _ => true) =
      .exhausted (if ("custom" == "custom" && true) then 5 else 10) :=
  C8_bulk_bound_five_only_for_custom ("custom") true (fun _ => "aaaaaa")
    (fun _ => true) (fun _ => rfl)

/-! ## C10 -/

/-- With at least one character-class flag set, the constructed alphabet is
non-empty even after removing similar-looking characters. -/
theorem buildAlphabet_ne_nil (nums upper lower excl : Bool)
    (h : (nums || upper || lower) = true) :
    buildAlphabet nums upper lower excl ≠ [] := by
  revert h
  cases nums <;> cases upper <;> cases lower <;> cases excl <;> decide

/-- C10 counterexample: with all three character-class flags false the
alphabet is empty and `customAlgorithm` returns the empty string instead
of a string of the requested length 7. -/
theorem C10_counterexample_empty_alphabet :
    customAlgorithm 7 false false false true (fun _ => 0) = [] ∧
      (customAlgorithm 7 false false false true (fun _ => 0)).length ≠ 7 := by
  constructor
  · rfl
  · decide

/-- C10 amended: for every option combination in which at least one of
`includeNumbers`, `includeUppercase`, `includeLowercase` is set (so the
alphabet is non-empty), `customAlgorithm` returns exactly `length`
characters, each drawn from the alphabet built from the flags (with the
similar-looking characters `0 O o 1 l I` removed when `excludeSimilar` is
set).  When all three flags are false the result is the empty string. -/
theorem C10_customAlgorithm_length_and_charset (len : Nat)
    (nums upper lower excl : Bool) (rand : Nat → Nat)
    (h : (nums || upper || lower) = true) :
    (customAlgorithm len nums upper lower excl rand).length = len ∧
      ∀ c ∈ customAlgorithm len nums upper lower excl rand,
        c ∈ buildAlphabet nums upper lower excl := by
  have hne := buildAlphabet_ne_nil nums upper lower excl h
  constructor
  · simp [customAlgorithm, hne]
  · intro c hc
    simp only [customAlgorithm, dif_neg hne, List.mem_map] at hc
    obtain ⟨i, _, rfl⟩ := hc
    exact List.get_mem _ _ _

/-- Witness for the amended C10 at length 7 with all flags set. -/
theorem C10_witness :
    (customAlgorithm 7 true true true true (fun n => n * 11)).length = 7 :=
  (C10_customAlgorithm_length_and_charset 7 true true true true
    (fun n => n * 11) (by decide)).1

/-! ## C1 -/

/-- Creation input used by the duplicate-insert scenario. -/
def firstAbcInput : UrlInput :=
  { original_url := "https://a.example", short_url := "abc" }

/-- A second creation input carrying the same short code `"abc"`. -/
def secondAbcInput : UrlInput :=
  { original_url := "https://b.example", short_url := "abc" }

/-- A store already holding a record with short code `"abc"`. -/
def storeWithAbc : Store := (createUrl emptyStore 0 firstAbcInput).2

/-- C1 (code bug, evaluated at the failing input): with a record of short
code `"abc"` already in the store, `InMemoryDatabase.createUrl` of a
second record with the same code succeeds — it returns the new record and
the store then holds two records whose `short_url` is `"abc"` — instead of
failing with a uniqueness violation as the spec requires. -/
theorem C1_createUrl_accepts_duplicate_code :
    (createUrl storeWithAbc 0 secondAbcInput).1.short_url = "abc" ∧
      ((createUrl storeWithAbc 0 secondAbcInput).2.urls.filter
        (fun u => u.short_url == "abc")).length = 2 := by
  constructor
  · rfl
  · rfl

/-- Generally, `createUrl` never rejects: it appends a record to the store
whatever codes are already present. -/
theorem createUrl_always_appends (db : Store) (now : Int) (data : UrlInput) :
    (createUrl db now data).2.urls.length = db.urls.length + 1 := by
  simp [createUrl]

/-! ## C9 -/

/-- A store holding URL id 1 (code `"abc"`) and one click referencing
it. -/
def storeWithAbcAndClick : Store :=
  (createClick storeWithAbc 0
    { url_id := 1, ip_address := "1.2.3.4", user_agent := "UA",
      referer := none, device_type := "other" }).2

/-- C9 (code bug, evaluated at the failing input): with URL id 1 and one
click referencing it in the store, `DELETE /:id` answers 500
(`Click.destroy` is not a function on the in-memory `Click` adapter, so
the handler throws and the `catch` reports failure), the URL record
survives, and the click record survives — the cascade the spec requires
never happens. -/
theorem C9_delete_throws_nothing_deleted :
    deleteUrlHandler storeWithAbcAndClick 1 =
        (.serverError, storeWithAbcAndClick) ∧
      (findUrlById (deleteUrlHandler storeWithAbcAndClick 1).2 1).isSome =
        true ∧
      (findClicksByUrlId (deleteUrlHandler storeWithAbcAndClick 1).2
        1).length = 1 := by
  refine ⟨rfl, rfl, rfl⟩

/-- Even the raw store delete does not cascade:
`InMemoryDatabase.deleteUrl` leaves the clicks map untouched. -/
theorem deleteUrl_leaves_clicks (db : Store) (id : Nat) :
    (deleteUrl db id).clicks = db.clicks := by
  simp [deleteUrl]

/-! ## C3 -/

/-- C3: for every syntactically valid short code with no record in the
store, the resolution route answers 404 Not Found (the `RouteOutcome`
constructors are pairwise distinct, so this is in particular never the
410 `gone` outcome): the existence check comes before the active-flag and
expiry checks, which are never reached. -/
theorem C3_unknown_code_is_notFound
    (clickCreate : Store → ClickInput → Option Store) (db : Store)
    (now : Int) (code ip ua : String) (ref : Option String)
    (hv : validateShortCode code.data = .ok)
    (hf : findUrlByShortCode db code = none) :
    resolveRoute clickCreate db now code ip ua ref = (.notFound, db) := by
  simp [resolveRoute, hv, redirectHandler, hf]

/-- Witness for C3: resolving `"abc"` against the empty store. -/
theorem C3_witness :
    resolveRoute (fun _ _ => none) emptyStore 0 "abc" "1.2.3.4" "UA" none =
      (.notFound, emptyStore) :=
  C3_unknown_code_is_notFound (fun _ _ => none) emptyStore 0 "abc" "1.2.3.4"
    "UA" none (by decide) (by decide)

/-! ## C4 -/

/-- C4: for every link whose `expires_at` is strictly in the past at
resolution time, the redirect handler answers 410 Gone (reason
`"expired"`) even when `is_active` is true. -/
theorem C4_expired_resolves_gone
    (clickCreate : Store → ClickInput → Option Store) (db : Store)
    (now : Int) (code ip ua : String) (ref : Option String) (url : UrlRec)
    (t : Int) (hf : findUrlByShortCode db code = some url)
    (ha : url.is_active = true) (he : url.expires_at = some t)
    (hp : t < now) :
    redirectHandler clickCreate db now code ip ua ref = (.gone ("expired"), db) := by
  have hx : isExpired now url = true := by
    simp [isExpired, he]
    exact hp
  simp [redirectHandler, hf, ha, hx]

/-- Witness for C4: a link created with `expires_at = -1`, resolved at
time 0, is reported Gone although it is active. -/
theorem C4_witness :
    redirectHandler (fun _ _ => none)
        (createUrl emptyStore (-2)
          { original_url := "https://a.example", short_url := "abc",
            expires_at := some (-1) }).2
        0 "abc" "1.2.3.4" "UA" none =
      (.gone ("expired"),
        (createUrl emptyStore (-2)
          { original_url := "https://a.example", short_url := "abc",
            expires_at := some (-1) }).2) :=
  C4_expired_resolves_gone (fun _ _ => none) _ 0 "abc" "1.2.3.4" "UA" none
    ((createUrl emptyStore (-2)
      { original_url := "https://a.example", short_url := "abc",
        expires_at := some (-1) }).1)
    (-1) (by decide) (by decide) (by decide) (by decide)

/-! ## C5 -/

/-- C5: for every existing, active, non-expired code, even with a
click-store insert that always throws (modelled by `fun _ _ => none`), the
handler still answers the 301 redirect to the link's `original_url`, and
the store is left as it was — a click-recording failure is never surfaced
as an error response. -/
theorem C5_click_throw_still_redirects (db : Store) (now : Int)
    (code ip ua : String) (ref : Option String) (url : UrlRec)
    (hf : findUrlByShortCode db code = some url)
    (ha : url.is_active = true) (hx : isExpired now url = false) :
    redirectHandler (fun _ _ => none) db now code ip ua ref =
      (.redirect 301 url.original_url, db) := by
  simp [redirectHandler, hf, ha, hx]

/-- Witness for C5: one active, non-expiring link, throwing click store. -/
theorem C5_witness :
    redirectHandler (fun _ _ => none)
        (createUrl emptyStore 0
          { original_url := "https://a.example", short_url := "abc" }).2
        0 "abc" "1.2.3.4" "UA" none =
      (.redirect 301 "https://a.example",
        (createUrl emptyStore 0
          { original_url := "https://a.example", short_url := "abc" }).2) :=
  C5_click_throw_still_redirects _ 0 "abc" "1.2.3.4" "UA" none
    ((createUrl emptyStore 0
      { original_url := "https://a.example", short_url := "abc" }).1)
    (by decide) (by decide) (by decide)

/-! ## C6 -/

/-- Projection forgetting the one counter field the click-tracking block
updates on the Link record. -/
def stripClickCount (u : UrlRec) : UrlRec :=
  { u with click_count := 0 }

/-- C6 counterexample: resolving an existing, active, non-expired code
does mutate the stored Link record — its `click_count` field goes from 0
to 1 (`InMemoryDatabase.createClick` increments it). -/
theorem C6_counterexample_click_count_mutates :
    let db := (createUrl emptyStore 0
      { original_url := "https://a.example", short_url := "abc" }).2
    (findUrlById db 1).map UrlRec.click_count = some 0 ∧
      (findUrlById (resolveRouteReal db 0 "abc" "1.2.3.4" "UA" none).2 1).map
          UrlRec.click_count = some 1 := by
  refine ⟨rfl, rfl⟩

/-- The per-resolution URL-map update of `createClick`, as a function. -/
def bumpClick (urlId : Nat) (u : UrlRec) : UrlRec :=
  if u.id == urlId then { u with click_count := u.click_count + 1 } else u

/-- Stripping the click counter cancels the bump. -/
theorem stripClickCount_bumpClick (urlId : Nat) (u : UrlRec) :
    stripClickCount (bumpClick urlId u) = stripClickCount u := by
  unfold stripClickCount bumpClick
  by_cases h : (u.id == urlId) = true <;> simp [h]

/-- The bump never changes the `short_url` field, so code lookup commutes
with it. -/
theorem find?_short_url_map_bumpClick (l : List UrlRec) (urlId : Nat)
    (code : String) :
    (l.map (bumpClick urlId)).find? (fun u => u.short_url == code) =
      (l.find? (fun u => u.short_url == code)).map (bumpClick urlId) := by
  have hp : ((fun u => u.short_url == code) ∘ bumpClick urlId) =
      (fun u : UrlRec => u.short_url == code) := by
    funext u
    unfold bumpClick
    by_cases h : u.id = urlId <;> simp [h]
  rw [List.find?_map, hp]

/-- One successful resolution, spelled out: the outcome is the 301
redirect and the store change is exactly one appended click plus the
`click_count` bump on the resolved link. -/
theorem resolveRouteReal_success_eq (db : Store) (now : Int)
    (code ip ua : String) (ref : Option String) (url : UrlRec)
    (hv : validateShortCode code.data = .ok)
    (hf : findUrlByShortCode db code = some url)
    (ha : url.is_active = true) (hx : isExpired now url = false) :
    resolveRouteReal db now code ip ua ref =
      (.redirect 301 url.original_url,
        { urls := db.urls.map (bumpClick url.id)
          clicks := db.clicks ++
            [{ id := db.clickCounter, url_id := url.id, ip_address := ip,
               user_agent := ua, referer := ref, country := none,
               city := none, browser := none, os := none,
               device_type := deviceTypeOf ua, createdAt := now }]
          urlCounter := db.urlCounter
          clickCounter := db.clickCounter + 1 }) := by
  simp only [resolveRouteReal, resolveRoute, hv, redirectHandler, hf, ha,
    hx, clickCreateReal, createClick, bumpClick]
  rfl

/-- C6 amended: resolving the same existing, active, non-expired code
twice yields the same `original_url` both times, and every field of every
stored Link other than `click_count` is unchanged by both resolutions
(`click_count` on the resolved link is incremented once per resolution by
the click-tracking block). -/
theorem C6_resolve_twice_same_target (db : Store) (now : Int)
    (code ip ua : String) (ref : Option String) (url : UrlRec)
    (hv : validateShortCode code.data = .ok)
    (hf : findUrlByShortCode db code = some url)
    (ha : url.is_active = true) (hx : isExpired now url = false) :
    (resolveRouteReal db now code ip ua ref).1 =
        .redirect 301 url.original_url ∧
      (resolveRouteReal (resolveRouteReal db now code ip ua ref).2 now code
          ip ua ref).1 = .redirect 301 url.original_url ∧
      (resolveRouteReal db now code ip ua ref).2.urls.map stripClickCount =
        db.urls.map stripClickCount ∧
      (resolveRouteReal (resolveRouteReal db now code ip ua ref).2 now code
          ip ua ref).2.urls.map stripClickCount =
        db.urls.map stripClickCount := by
  have h1 := resolveRouteReal_success_eq db now code ip ua ref url hv hf ha hx
  set db1 := (resolveRouteReal db now code ip ua ref).2 with hdb1
  have hdb1urls : db1.urls = db.urls.map (bumpClick url.id) := by
    rw [hdb1, h1]
  -- the second lookup finds the bumped record
  have hf1 : findUrlByShortCode db1 code = some (bumpClick url.id url) := by
    unfold findUrlByShortCode
    rw [hdb1urls, find?_short_url_map_bumpClick]
    unfold findUrlByShortCode at hf
    rw [hf]
    rfl
  have ha1 : (bumpClick url.id url).is_active = true := by
    unfold bumpClick
    by_cases h : (url.id == url.id) = true <;> simp [h, ha]
  have hx1 : isExpired now (bumpClick url.id url) = false := by
    unfold bumpClick at *
    by_cases h : (url.id == url.id) = true <;> simp_all [isExpired]
  have h2 := resolveRouteReal_success_eq db1 now code ip ua ref
    (bumpClick url.id url) hv hf1 ha1 hx1
  have hbu : (bumpClick url.id url).original_url = url.original_url := by
    unfold bumpClick
    by_cases h : (url.id == url.id) = true <;> simp [h]
  have hbid : (bumpClick url.id url).id = url.id := by
    unfold bumpClick
    by_cases h : (url.id == url.id) = true <;> simp [h]
  have hstrip : ∀ l : List UrlRec,
      (l.map (bumpClick url.id)).map stripClickCount =
        l.map stripClickCount := by
    intro l
    rw [List.map_map]
    exact List.map_congr_left fun u _ => stripClickCount_bumpClick url.id u
  refine ⟨by rw [h1], ?_, ?_, ?_⟩
  · rw [h2, hbu]
  · rw [hdb1urls]
    exact hstrip db.urls
  · rw [h2]
    simp only [hbid]
    rw [hdb1urls]
    rw [hstrip (db.urls.map (bumpClick url.id)), hstrip db.urls]

/-- Witness for the amended C6: first resolution of a concrete link
redirects to its original URL. -/
theorem C6_witness :
    (resolveRouteReal
        (createUrl emptyStore 0
          { original_url := "https://a.example", short_url := "abc" }).2
        0 "abc" "1.2.3.4" "UA" none).1 =
      .redirect 301 "https://a.example" :=
  (C6_resolve_twice_same_target _ 0 "abc" "1.2.3.4" "UA" none
    ((createUrl emptyStore 0
      { original_url := "https://a.example", short_url := "abc" }).1)
    (by decide) (by decide) (by decide) (by decide)).1

/-! ## C7 -/

/-- The short-code rules of the claim: length over 20, characters outside
letters/digits/hyphen/underscore, path-traversal dots, encoded sequences,
raw XSS characters, null bytes. -/
def violatesRules (l : List Char) : Bool :=
  decide (l.length > 20) || l.any (fun c => !validChar c) || hasDotDot l ||
    hasPercentHex l || l.any isXssChar ||
    l.any (fun c => c == Char.ofNat 0)

/-- None of the XSS-class characters is in the whitelist. -/
theorem validChar_false_of_isXssChar (c : Char) (h : isXssChar c = true) :
    validChar c = false := by
  unfold isXssChar at h
  simp only [Bool.or_eq_true, beq_iff_eq] at h
  rcases h with ((((rfl | rfl) | rfl) | rfl) | rfl) <;> decide

/-- A path-traversal match contains a dot. -/
theorem dot_mem_of_hasDotDot : ∀ l, hasDotDot l = true → '.' ∈ l := by
  intro l
  induction l with
  | nil => intro h; simp [hasDotDot] at h
  | cons c rest ih =>
    cases rest with
    | nil => intro h; simp [hasDotDot] at h
    | cons c2 rest2 =>
      intro h
      rw [hasDotDot] at h
      rcases Bool.or_eq_true_iff.mp h with h1 | h2
      · have : c = '.' := by
          have := Bool.and_eq_true_iff.mp h1
          exact eq_of_beq this.1
        simp [this]
      · exact List.mem_cons_of_mem _ (ih h2)

/-- A URL-encoding match contains a percent sign. -/
theorem percent_mem_of_hasPercentHex :
    ∀ l, hasPercentHex l = true → '%' ∈ l := by
  intro l
  induction l with
  | nil => intro h; simp [hasPercentHex] at h
  | cons c rest ih =>
    cases rest with
    | nil => intro h; simp [hasPercentHex] at h
    | cons c2 rest2 =>
      cases rest2 with
      | nil => intro h; simp [hasPercentHex] at h
      | cons c3 rest3 =>
        intro h
        rw [hasPercentHex] at h
        rcases Bool.or_eq_true_iff.mp h with h1 | h2
        · have : c = '%' := by
            have := Bool.and_eq_true_iff.mp h1
            exact eq_of_beq (Bool.and_eq_true_iff.mp this.1).1
          simp [this]
        · exact List.mem_cons_of_mem _ (ih h2)

/-- Any code violating the claim's syntactic rules fails the whitelist
regex of `validateShortCode`. -/
theorem pattern_fails_of_violates (l : List Char)
    (h : violatesRules l = true) : shortCodePatternOk l = false := by
  by_contra hne
  have hok : shortCodePatternOk l = true := by
    cases hpat : shortCodePatternOk l
    · exact absurd hpat hne
    · rfl
  unfold shortCodePatternOk at hok
  have hlen : l.length ≤ 20 := by
    have := (Bool.and_eq_true_iff.mp hok).1
    exact of_decide_eq_true (Bool.and_eq_true_iff.mp this).2
  have hall : ∀ c ∈ l, validChar c = true := by
    have := (Bool.and_eq_true_iff.mp hok).2
    exact fun c hc => List.all_eq_true.mp this c hc
  unfold violatesRules at h
  rcases Bool.or_eq_true_iff.mp h with h' | hnull
  rcases Bool.or_eq_true_iff.mp h' with h' | hxss
  rcases Bool.or_eq_true_iff.mp h' with h' | hpct
  rcases Bool.or_eq_true_iff.mp h' with h' | hdot
  rcases Bool.or_eq_true_iff.mp h' with hlong | hbad
  · exact absurd (of_decide_eq_true hlong) (by omega)
  · obtain ⟨c, hc, hv⟩ := List.any_eq_true.mp hbad
    rw [hall c hc] at hv
    simp at hv
  · have := hall '.' (dot_mem_of_hasDotDot l hdot)
    simp [validChar] at this
  · have := hall '%' (percent_mem_of_hasPercentHex l hpct)
    simp [validChar] at this
  · obtain ⟨c, hc, hv⟩ := List.any_eq_true.mp hxss
    have hvc := hall c hc
    rw [validChar_false_of_isXssChar c hv] at hvc
    simp at hvc
  · obtain ⟨c, hc, hv⟩ := List.any_eq_true.mp hnull
    have : c = Char.ofNat 0 := eq_of_beq hv
    subst this
    have := hall _ hc
    simp [validChar] at this

/-- A violating code is non-empty (the empty list satisfies none of the
rule disjuncts). -/
theorem ne_nil_of_violates (l : List Char) (h : violatesRules l = true) :
    l ≠ [] := by
  intro hnil
  subst hnil
  simp [violatesRules, hasDotDot, hasPercentHex] at h

/-- The warn-logging branch of `validateShortCode` is unreachable: every
rejection happens with `logged = false`, because the whitelist regex
already excludes every character the malicious-pattern checks look for. -/
theorem validateShortCode_never_logs (l : List Char) :
    validateShortCode l ≠ .reject true := by
  unfold validateShortCode
  by_cases hnil : l = []
  · simp [hnil]
  · simp only [hnil, if_false]
    by_cases hpat : shortCodePatternOk l = true
    · have hall : ∀ c ∈ l, validChar c = true := by
        unfold shortCodePatternOk at hpat
        exact fun c hc =>
          List.all_eq_true.mp (Bool.and_eq_true_iff.mp hpat).2 c hc
      have hmal : hasMaliciousPattern l = false := by
        unfold hasMaliciousPattern
        simp only [Bool.or_eq_false_iff]
        refine ⟨⟨⟨⟨⟨?_, ?_⟩, ?_⟩, ?_⟩, ?_⟩, ?_⟩
        · cases hdd : hasDotDot l
          · rfl
          · have := hall '.' (dot_mem_of_hasDotDot l hdd)
            simp [validChar] at this
        · cases hph : hasPercentHex l
          · rfl
          · have := hall '%' (percent_mem_of_hasPercentHex l hph)
            simp [validChar] at this
        · rw [List.any_eq_false]
          intro c hc hx
          have hvc := hall c hc
          rw [validChar_false_of_isXssChar c hx] at hvc
          simp at hvc
        · rw [List.any_eq_false]
          intro c hc hx
          have : c = Char.ofNat 0 := eq_of_beq hx
          subst this
          have := hall _ hc
          simp [validChar] at this
        · rw [List.any_eq_false]
          intro c hc hx
          have : c = '\\' := eq_of_beq hx
          subst this
          have := hall _ hc
          simp [validChar] at this
        · rw [List.any_eq_false]
          intro c hc hx
          have : c = '/' := eq_of_beq hx
          subst this
          have := hall _ hc
          simp [validChar] at this
      simp [hpat, hmal]
    · simp [hpat]

/-- C7 counterexample: the code `".."` (path traversal) is rejected with
400 before any storage access, but the rejection is not logged with the
offending code and source IP — the `console.warn` branch never runs,
because `".."` already fails the whitelist regex. -/
theorem C7_counterexample_rejection_not_logged :
    validateShortCode ("..".data) = .reject false ∧
      resolveRouteReal emptyStore 0 ".." "1.2.3.4" "UA" none =
        (.badRequest false, emptyStore) := by
  refine ⟨rfl, rfl⟩

/-- C7 amended: for every inbound code violating the syntactic rules and
every store, click recorder, time and request metadata, the route answers
400 (an outcome distinct from NotFound) with the store untouched — the
storage lookup is never reached — but without the warn log of the
offending code and source IP, since the logging branch only follows the
malicious-pattern checks, which such codes never reach. -/
theorem C7_violating_code_rejected_unlogged
    (clickCreate : Store → ClickInput → Option Store) (db : Store)
    (now : Int) (code ip ua : String) (ref : Option String)
    (h : violatesRules code.data = true) :
    resolveRoute clickCreate db now code ip ua ref =
      (.badRequest false, db) := by
  have hpat := pattern_fails_of_violates code.data h
  have hnil := ne_nil_of_violates code.data h
  simp [resolveRoute, validateShortCode, hnil, hpat]

/-- Witness for the amended C7: a 21-character code, over the length
bound, is rejected unlogged against an arbitrary concrete store. -/
theorem C7_witness :
    resolveRoute (fun _ _ => none) emptyStore 0 "aaaaaaaaaaaaaaaaaaaaa"
        "1.2.3.4" "UA" none =
      (.badRequest false, emptyStore) :=
  C7_violating_code_rejected_unlogged (fun _ _ => none) emptyStore 0
    "aaaaaaaaaaaaaaaaaaaaa" "1.2.3.4" "UA" none (by decide)

end MiniUrl
